import Mathlib

/-!
Verification development for the Smart Health Care System repository,
covering the verification-polling core (VerificationPoller, the Angular
VerificationService visibility handling) and the reconciliation
normalizer of the instruments-verification component.

The definitions below are shallow embeddings of the JavaScript /
TypeScript source: JS timer handles are modelled as `Option Unit`
(the only use of `timerId` in the source is the `!== null` test),
timestamps as `Nat`, and the opaque JSON payload passed through the
poller as a `Nat` tag.  Fetch completion is modelled synchronously:
the source issues an XMLHttpRequest and reacts in `xhr.onload` /
`xhr.onerror`; here a `FetchOutcome` value is handed to the completion
handler directly.
-/

namespace HCS

/-- Outcome of one fetch attempt, as classified by the source's
`xhr.onload` / `xhr.onerror` handlers: a parsed JSON payload (opaque to
the poller, modelled as a `Nat` tag), or a failure (network error,
non-2xx status, or JSON parse error — all three are routed to
`handleError` in the source). -/
inductive FetchOutcome
  | success (data : Nat)
  | failure
deriving DecidableEq, Repr

/-- One notification delivered to every registered callback.
`snapshot` models the data object of a successful fetch; `error` models
the `{error, details, retrying?, errorCount?, maxErrors?}` object built
in `handleError` — `retrying = false` and `none` fields model the
terminal object `{error, details}`, which carries no `retrying`,
`errorCount` or `maxErrors` keys. -/
inductive PollEvent
  | snapshot (data : Nat)
  | error (retrying : Bool) (errorCount : Option Nat) (maxErrors : Option Nat)
deriving DecidableEq, Repr

/-- State of a `VerificationPoller` (token variant, the one imported by
the Angular `VerificationService`): fields of the JS class, with
`callbacks` elided (event delivery is modelled by the event lists the
operations return, which `notifyCallbacks` hands to every callback). -/
structure PollerState where
  sessionId : Int
  updateInterval : Int
  authToken : Option String
  timerId : Option Unit
  lastUpdate : Option Nat
  errorCount : Nat
  maxErrors : Nat
deriving DecidableEq, Repr

/-- `stop()`: clear the repeating timer if armed (the source guards on
`timerId !== null`; the resulting state is the same either way). -/
def stopPoller (s : PollerState) : PollerState :=
  { s with timerId := none }

/-- `start()`: `this.stop()`, reset `errorCount` to 0, perform one
immediate `fetchStatus()` (an asynchronous request whose completion is
modelled as a separate environment event), and arm the repeating
interval timer. -/
def startPoller (s : PollerState) : PollerState :=
  { stopPoller s with errorCount := 0, timerId := some () }

/-- `handleError(error)`: increment `errorCount`; once it reaches
`maxErrors` call `stop()` and notify callbacks with the terminal
`{error, details}` object (no `retrying` key), otherwise notify with
the non-terminal `{error, details, retrying: true, errorCount,
maxErrors}` object. -/
def handleError (s : PollerState) : PollerState × List PollEvent :=
  let ec := s.errorCount + 1
  if s.maxErrors ≤ ec then
    ({ s with errorCount := ec, timerId := none },
     [PollEvent.error false none none])
  else
    ({ s with errorCount := ec },
     [PollEvent.error true (some ec) (some s.maxErrors)])

/-- Completion of one fetch attempt (`xhr.onload` / `xhr.onerror`):
on success reset `errorCount`, set `lastUpdate`, and notify callbacks
with the parsed data; on failure run `handleError`.  Note that the
source consults no "still running" flag here: completion is processed
the same way whether or not the timer is armed. -/
def onFetchComplete (s : PollerState) (o : FetchOutcome) (now : Nat) :
    PollerState × List PollEvent :=
  match o with
  | FetchOutcome.success d =>
    ({ s with errorCount := 0, lastUpdate := some now }, [PollEvent.snapshot d])
  | FetchOutcome.failure => handleError s

/-- Environment events driving a poller: `tick o` is one firing of the
repeating `setInterval` timer whose fetch completes with outcome `o`
(the timer only fires while armed); `late o` is the completion of a
request that was already in flight (e.g. issued before a `stop()`),
which the source processes unconditionally. -/
inductive PollEnv
  | tick (o : FetchOutcome)
  | late (o : FetchOutcome)
deriving DecidableEq, Repr

/-- Whether an environment event is a timer tick (an automatic fetch). -/
def isTick : PollEnv → Bool
  | PollEnv.tick _ => true
  | PollEnv.late _ => false

/-- One environment step: a tick fires (and its fetch runs to
completion) only when the timer is armed; a late response is handled
unconditionally, exactly as `xhr.onload` runs whenever the response
arrives. -/
def stepEnv (s : PollerState) (e : PollEnv) (now : Nat) :
    PollerState × List PollEvent :=
  match e with
  | PollEnv.tick o => if s.timerId.isSome then onFetchComplete s o now else (s, [])
  | PollEnv.late o => onFetchComplete s o now

/-- Run a poller through a list of environment events, collecting all
events delivered to callbacks in order. -/
def runPoller (s : PollerState) (envs : List PollEnv) (now : Nat) :
    PollerState × List PollEvent :=
  match envs with
  | [] => (s, [])
  | e :: rest =>
    let r := stepEnv s e now
    let r2 := runPoller r.fst rest (now + 1)
    (r2.fst, r.snd ++ r2.snd)

/-- Whether a delivered event is a non-terminal ErrorEvent
(`retrying: true`). -/
def isRetryingEvent : PollEvent → Bool
  | PollEvent.error true _ _ => true
  | _ => false

/-- State of the basic `VerificationPoller` variant (the file without
`handleError` / `errorCount`): its constructor assigns `sessionId` and
`updateInterval` unvalidated and keeps no error budget. -/
structure LegacyPollerState where
  sessionId : Int
  updateInterval : Int
  timerId : Option Unit
  lastUpdate : Option Nat
deriving DecidableEq, Repr

/-- Fetch completion in the basic variant: on success set `lastUpdate`
and notify all callbacks; on failure the promise `.catch` only logs
(`console.error`) — no callback is notified. -/
def legacyFetchComplete (s : LegacyPollerState) (o : FetchOutcome) (now : Nat) :
    LegacyPollerState × List PollEvent :=
  match o with
  | FetchOutcome.success d =>
    ({ s with lastUpdate := some now }, [PollEvent.snapshot d])
  | FetchOutcome.failure => (s, [])

/-! ### VerificationService (Angular) — visibility handling -/

/-- State of the Angular `VerificationService`: the (possibly absent)
poller instance and the `pollingActive` flag. -/
structure ServiceState where
  poller : Option PollerState
  pollingActive : Bool
deriving DecidableEq, Repr

/-- A freshly constructed poller for the service (the dynamic-import
branch constructs `new VerificationPoller(sessionId, updateInterval,
token)`; field initialisation as in the JS constructor). -/
def freshPoller (sessionId : Int) (updateInterval : Int)
    (authToken : Option String) : PollerState :=
  { sessionId := sessionId, updateInterval := updateInterval,
    authToken := authToken, timerId := none, lastUpdate := none,
    errorCount := 0, maxErrors := 3 }

/-- `stopVerificationPolling()`: if a poller exists, call its `stop()`,
null it out and clear `pollingActive`; otherwise do nothing. -/
def svcStopPolling (s : ServiceState) : ServiceState :=
  match s.poller with
  | some _ => { poller := none, pollingActive := false }
  | none => s

/-- `startVerificationPolling(sessionId)` (the successful path with a
valid session id): stop any existing polling, construct a new poller,
register the update handler, call the poller's `start()` and set
`pollingActive := true`. -/
def svcStartPolling (s : ServiceState) (sessionId : Int)
    (updateInterval : Int) (authToken : Option String) : ServiceState :=
  let stopped := svcStopPolling s
  { stopped with
    poller := some (startPoller (freshPoller sessionId updateInterval authToken)),
    pollingActive := true }

/-- `handleVisibilityChange()`: when the document becomes hidden, if a
poller exists and `pollingActive` is set, call the poller's `stop()`
(the source leaves `pollingActive` unchanged here); when it becomes
visible, call the poller's `start()` and set `pollingActive := true`
only if a poller exists and `pollingActive` is clear. -/
def handleVisibilityChange (hidden : Bool) (s : ServiceState) : ServiceState :=
  if hidden then
    match s.poller with
    | some p =>
      if s.pollingActive then { s with poller := some (stopPoller p) } else s
    | none => s
  else
    match s.poller with
    | some p =>
      if s.pollingActive then s
      else { poller := some (startPoller p), pollingActive := true }
    | none => s

/-! ### Constructor validation — JS value model -/

/-- The JavaScript values a `sessionId` argument ranges over in this
model: `undefined`, `null`, an (integral) number, or a string.
Fractional numbers are not modelled; every `num` is an integer, so
`parseInt(String(n))` round-trips to `n`. -/
inductive JSVal
  | undef
  | jsNull
  | num (n : Int)
  | str (s : String)
deriving DecidableEq, Repr

/-- JS truthiness of a `JSVal` (`!sessionId` in the source is the
negation of this): `undefined`, `null`, `0` and `""` are falsy. -/
def truthy : JSVal → Bool
  | JSVal.undef => false
  | JSVal.jsNull => false
  | JSVal.num n => n != 0
  | JSVal.str s => s != ""

/-- Longest leading digit run of a character list. -/
def digitsOf (cs : List Char) : List Char :=
  cs.takeWhile (fun c => c.isDigit)

/-- Numeric value of a digit run. -/
def digitsVal (cs : List Char) : Nat :=
  cs.foldl (fun acc c => acc * 10 + (c.toNat - 48)) 0

/-- `parseInt` on a character list (decimal radix): skip leading
whitespace, accept an optional sign, then the longest digit run; `NaN`
(here `none`) when no digit follows.  The hex `0x` prefix of JS
`parseInt` is not modelled — no session id in the repository uses it. -/
def parseIntChars (cs : List Char) : Option Int :=
  let cs := cs.dropWhile (fun c => c = ' ')
  match cs with
  | '-' :: rest =>
    let ds := digitsOf rest
    if ds.isEmpty then none else some (-(digitsVal ds : Int))
  | '+' :: rest =>
    let ds := digitsOf rest
    if ds.isEmpty then none else some ((digitsVal ds : Int))
  | other =>
    let ds := digitsOf other
    if ds.isEmpty then none else some ((digitsVal ds : Int))

/-- JS `parseInt(v)` for the modelled values: numbers round-trip
(integral numbers stringify to their decimal form), strings are parsed,
and `parseInt("undefined")` / `parseInt("null")` are `NaN`. -/
def jsParseInt : JSVal → Option Int
  | JSVal.undef => none
  | JSVal.jsNull => none
  | JSVal.num n => some n
  | JSVal.str s => parseIntChars s.toList

/-- The `VerificationPoller` constructor (token variant): throw
`Error('Invalid session ID provided')` when `!sessionId ||
isNaN(parseInt(sessionId)) || parseInt(sessionId) <= 0`; otherwise
initialise the instance fields.  `updateInterval` and `authToken` are
stored without any validation. -/
def mkVerificationPoller (sessionId : JSVal) (updateInterval : Int)
    (authToken : Option String) : Except String PollerState :=
  if truthy sessionId = false ∨ (jsParseInt sessionId).isNone = true ∨
      (jsParseInt sessionId).getD 0 ≤ 0 then
    Except.error "Invalid session ID provided"
  else
    Except.ok { sessionId := (jsParseInt sessionId).getD 0,
                updateInterval := updateInterval, authToken := authToken,
                timerId := none, lastUpdate := none,
                errorCount := 0, maxErrors := 3 }

/-! ### Reconciliation normalizer (InstrumentsVerificationComponent)

Payload sub-maps arrive as JSON objects whose values are either bare
counts or `{quantity, ids}` objects; `Leaf` covers both shapes.  An
absent, `null` or otherwise non-object sub-map produces either a falsy
guard (`used_items?.instruments` is skipped) or zero `for...in`
iterations, so such a slot is modelled as `none`; a proper object
sub-map is `some` of its entry list in insertion order. -/

/-- A leaf value of an `instruments` / `trays` sub-map: a bare count,
or an object with an optional `quantity` field and an `ids` list. -/
inductive Leaf
  | count (n : Int)
  | obj (quantity : Option Int) (ids : List Int)
deriving DecidableEq, Repr

/-- One sub-map pair (`instruments` / `trays`) of a category such as
`missing_items` or `used_items`. -/
structure ItemsMap where
  instruments : Option (List (String × Leaf))
  trays : Option (List (String × Leaf))
deriving DecidableEq, Repr

/-- One entry of `required_items_status`: the backend reports how many
of a required item were found. -/
structure ReqEntry where
  found_quantity : Int
  required_quantity : Int
deriving DecidableEq, Repr

/-- The `required_items_status` field: optional `instruments` and
`trays` sub-maps of `ReqEntry` values. -/
structure ReqItemsStatus where
  instruments : Option (List (String × ReqEntry))
  trays : Option (List (String × ReqEntry))
deriving DecidableEq, Repr

/-- A normalized view item `{name, type, quantity}`; `found_quantity`
is only populated by `getRequiredItems` (the source's `data`
back-reference to the raw entry is not modelled). -/
structure Item where
  name : String
  type : String
  quantity : Int
  found_quantity : Option Int := none
deriving DecidableEq, Repr

/-- One tab of the newer `tabs` payload structure: an optional item
list and an optional count. -/
structure TabEntry where
  items : Option (List Item)
  count : Option Int
deriving DecidableEq, Repr

/-- The `tabs` payload structure with its four tabs. -/
structure Tabs where
  missing : Option TabEntry
  present : Option TabEntry
  extra : Option TabEntry
  required : Option TabEntry
deriving DecidableEq, Repr

/-- The fields of a `VerificationStatus` consulted by the normalizer
and the membership query (`extra_items`, `counts` and the metadata
fields play no part in the embedded functions). -/
structure VStatus where
  tabs : Option Tabs
  required_items_status : Option ReqItemsStatus
  used_items : Option ItemsMap
  missing_items : Option ItemsMap
deriving DecidableEq, Repr

/-- The category argument of `getCombinedItems`. -/
inductive Category
  | missing
  | used
  | extra
  | required
deriving DecidableEq, Repr

/-- `getItemQuantity(item)`: `if (!item) return 0; return item.quantity
|| 1`.  A bare count 0 is falsy (result 0); any other bare count is a
truthy number without a `quantity` property, so `undefined || 1`
yields 1; an object leaf yields its `quantity` unless that is absent
or 0 (JS `||`), in which case 1. -/
def getItemQuantity : Leaf → Int
  | Leaf.count n => if n = 0 then 0 else 1
  | Leaf.obj q _ =>
    match q with
    | none => 1
    | some v => if v = 0 then 1 else v

/-- The `for (const name in sub)` loop pushing
`{name, type, quantity: getItemQuantity(item)}` for each entry of one
sub-map; a falsy or non-object sub-map contributes nothing. -/
def collectLeaves (ty : String) (sub : Option (List (String × Leaf))) : List Item :=
  match sub with
  | none => []
  | some entries =>
    entries.map (fun p => { name := p.fst, type := ty, quantity := getItemQuantity p.snd })

/-- The `Object.entries(...).forEach` loops of `getRequiredItems`,
pushing `{name, type, quantity: data.required_quantity || 1,
found_quantity: data.found_quantity || 0}` (JS `||` sends a 0
`required_quantity` to 1; `found_quantity || 0` is the identity). -/
def collectRequired (ty : String) (sub : Option (List (String × ReqEntry))) : List Item :=
  match sub with
  | none => []
  | some entries =>
    entries.map (fun p =>
      { name := p.fst, type := ty,
        quantity := if p.snd.required_quantity = (0 : Int) then (1 : Int) else p.snd.required_quantity,
        found_quantity := some p.snd.found_quantity })

/-- `getRequiredItems()`: instruments of `required_items_status` first,
then its trays; empty when the field is absent. -/
def getRequiredItems (st : VStatus) : List Item :=
  match st.required_items_status with
  | none => []
  | some r => collectRequired "instrument" r.instruments ++ collectRequired "tray" r.trays

/-- The tab selected for a category by the source's literal mapping:
`missing → missing`, `used → present`, `extra → extra`,
`required → required`. -/
def tabFor (t : Tabs) : Category → Option TabEntry
  | Category.missing => t.missing
  | Category.used => t.present
  | Category.extra => t.extra
  | Category.required => t.required

/-- The pre-tabs fallback of `getCombinedItems`: the `missing` and
`used` branches iterate `instruments` then `trays` of the matching
`*_items` field through optional chaining; `required` delegates to
`getRequiredItems`; `extra` has no branch, so the initial empty result
is returned. -/
def combinedFallback (st : VStatus) : Category → List Item
  | Category.missing =>
    collectLeaves "instrument" (st.missing_items.bind (fun m => m.instruments)) ++
      collectLeaves "tray" (st.missing_items.bind (fun m => m.trays))
  | Category.used =>
    collectLeaves "instrument" (st.used_items.bind (fun m => m.instruments)) ++
      collectLeaves "tray" (st.used_items.bind (fun m => m.trays))
  | Category.extra => []
  | Category.required => getRequiredItems st

/-- `getCombinedItems(category)`: with no status, return `[]`; when the
`tabs` structure is present and holds the mapped tab, return its
`items || []`; otherwise fall back to the per-category dictionary
walk. -/
def getCombinedItems (v : Option VStatus) (category : Category) : List Item :=
  match v with
  | none => []
  | some st =>
    match st.tabs with
    | some t =>
      match tabFor t category with
      | some te => te.items.getD []
      | none => combinedFallback st category
    | none => combinedFallback st category

/-- Lookup of `sub && sub[name]` in an optional sub-map. -/
def lookupEntry (sub : Option (List (String × ReqEntry))) (n : String) : Option ReqEntry :=
  match sub with
  | none => none
  | some entries => entries.lookup n

/-- `Object.keys(sub).includes(name)` guarded by
`bucket?.sub && ...`: whether the name is a key of the given optional
sub-map. -/
def containsName (sub : Option (List (String × Leaf))) (n : String) : Bool :=
  match sub with
  | none => false
  | some entries => entries.any (fun p => p.fst == n)

/-- Whether `itemName` is a key of `used_items.instruments` or
`used_items.trays` (the source's `inUsedInstruments ||
inUsedTrays`). -/
def usedContains (st : VStatus) (n : String) : Bool :=
  match st.used_items with
  | none => false
  | some u => containsName u.instruments n || containsName u.trays n

/-- Whether `itemName` is a key of `missing_items.instruments` or
`missing_items.trays`. -/
def missingContains (st : VStatus) (n : String) : Bool :=
  match st.missing_items with
  | none => false
  | some m => containsName m.instruments n || containsName m.trays n

/-- The pre-`required_items_status` fallback of `isItemMissing`: an
item found in `used_items` is never missing; otherwise it is missing
exactly when it appears in `missing_items`. -/
def fallbackIsMissing (st : VStatus) (n : String) : Bool :=
  if usedContains st n then false else missingContains st n

/-- `isItemMissing(itemName)`: with the `required_items_status` field
present, an entry for the name under `instruments` (checked first) or
`trays` answers `found_quantity < required_quantity` immediately;
otherwise the used/missing fallback applies. -/
def isItemMissing (v : Option VStatus) (itemName : String) : Bool :=
  match v with
  | none => false
  | some st =>
    match st.required_items_status with
    | some r =>
      (match lookupEntry r.instruments itemName with
       | some e => decide (e.found_quantity < e.required_quantity)
       | none =>
         match lookupEntry r.trays itemName with
         | some e => decide (e.found_quantity < e.required_quantity)
         | none => fallbackIsMissing st itemName)
    | none => fallbackIsMissing st itemName

/-- The first entry of `required_items_status` matching a name, in the
order the source checks (`instruments`, then `trays`); `none` when the
field is absent or holds no entry for the name. -/
def reqLookup (st : VStatus) (n : String) : Option ReqEntry :=
  match st.required_items_status with
  | none => none
  | some r =>
    match lookupEntry r.instruments n with
    | some e => some e
    | none => lookupEntry r.trays n

/-! ### Concrete inputs used by witnesses and counterexamples -/

/-- A freshly constructed poller for session 1 at a 1000 ms interval. -/
def basePoller : PollerState :=
  { sessionId := 1, updateInterval := 1000, authToken := none,
    timerId := none, lastUpdate := none, errorCount := 0, maxErrors := 3 }

/-- An armed poller two failures into its error budget. -/
def budgetNearlySpent : PollerState :=
  { sessionId := 1, updateInterval := 1000, authToken := none,
    timerId := some (), lastUpdate := none, errorCount := 2, maxErrors := 3 }

/-- Three consecutive failing timer ticks. -/
def threeFailures : List PollEnv :=
  [PollEnv.tick FetchOutcome.failure, PollEnv.tick FetchOutcome.failure,
   PollEnv.tick FetchOutcome.failure]

/-- The service right after `startVerificationPolling(5)`. -/
def svcAfterStart : ServiceState :=
  svcStartPolling { poller := none, pollingActive := false } 5 5000 none

/-- A basic-variant poller with its timer armed. -/
def legacyPoller : LegacyPollerState :=
  { sessionId := 1, updateInterval := 5000, timerId := some (), lastUpdate := none }

/-- The raw payload of the spec scenario:
`{missing_items: {instruments: {"Scalpel": 2}, trays: {}},
  used_items: {instruments: {}, trays: {"Basic Tray": 1}}}`. -/
def scenarioPayload : VStatus :=
  { tabs := none, required_items_status := none,
    used_items := some { instruments := some [],
                         trays := some [("Basic Tray", Leaf.count 1)] },
    missing_items := some { instruments := some [("Scalpel", Leaf.count 2)],
                            trays := some [] } }

/-- A payload with `missing_items` present and `used_items` entirely
absent. -/
def noUsedPayload : VStatus :=
  { tabs := none, required_items_status := none,
    used_items := none,
    missing_items := some { instruments := some [("Scalpel", Leaf.count 2)],
                            trays := some [] } }

/-- A status in which "Scissors" is required (1 of 2 found) and also a
key of `used_items.instruments`. -/
def overrideStatus : VStatus :=
  { tabs := none,
    required_items_status := some
      { instruments := some [("Scissors", { found_quantity := 1, required_quantity := 2 })],
        trays := none },
    used_items := some { instruments := some [("Scissors", Leaf.count 1)], trays := none },
    missing_items := none }

/-- A status with no `required_items_status`: "Clamp" is used and also
listed missing, "Retractor" is only missing. -/
def fallbackOnlyStatus : VStatus :=
  { tabs := none, required_items_status := none,
    used_items := some { instruments := some [("Clamp", Leaf.count 1)], trays := none },
    missing_items := some
      { instruments := some [("Clamp", Leaf.count 1), ("Retractor", Leaf.count 1)],
        trays := none } }

/-! ## Helper lemmas -/

/-- Every completed fetch attempt in the token-variant poller produces
exactly one callback notification. -/
theorem onFetchComplete_snd_length (s : PollerState) (o : FetchOutcome) (now : Nat) :
    (onFetchComplete s o now).snd.length = 1 := by
  cases o with
  | success d => rfl
  | failure =>
    simp only [onFetchComplete, handleError]
    split <;> rfl

/-- With the timer cleared, a sequence of timer ticks fires no fetch
and emits no event. -/
theorem runPoller_ticks_stopped (s : PollerState) (envs : List PollEnv)
    (hstop : s.timerId = none) :
    (∀ e ∈ envs, isTick e = true) → ∀ now, runPoller s envs now = (s, []) := by
  induction envs with
  | nil => intro _ _; rfl
  | cons e rest ih =>
    intro hticks now
    have he := hticks e (List.mem_cons_self e rest)
    have hrest := ih (fun x hx => hticks x (List.mem_cons_of_mem e hx)) (now + 1)
    cases e with
    | tick o => simp [runPoller, stepEnv, hstop, hrest]
    | late o => simp [isTick] at he

/-! ## Claim theorems -/

/-- Claim C1: when a failure brings the consecutive-error count to
`maxConsecutiveErrors` (3), the poller clears its repeating timer and
notifies callbacks with exactly one terminal ErrorEvent (an error
object without a `retrying` flag); with the timer cleared, further
timer ticks fire no fetch and emit nothing, and only `start()` re-arms
the timer. -/
theorem poller_stops_after_max_errors (s : PollerState)
    (hmax : s.maxErrors = 3) (hec : s.errorCount = 2) :
    (onFetchComplete s FetchOutcome.failure 0).fst.timerId = none ∧
    (onFetchComplete s FetchOutcome.failure 0).snd =
      [PollEvent.error false none none] ∧
    (∀ envs, (∀ e ∈ envs, isTick e = true) → ∀ now,
      runPoller (onFetchComplete s FetchOutcome.failure 0).fst envs now =
        ((onFetchComplete s FetchOutcome.failure 0).fst, [])) ∧
    (startPoller (onFetchComplete s FetchOutcome.failure 0).fst).timerId = some () := by
  have hterm : onFetchComplete s FetchOutcome.failure 0 =
      ({ s with errorCount := 3, timerId := none },
       [PollEvent.error false none none]) := by
    simp [onFetchComplete, handleError, hmax, hec]
  refine ⟨by rw [hterm], by rw [hterm], ?_, by rw [hterm]; rfl⟩
  intro envs hticks now
  rw [hterm]
  exact runPoller_ticks_stopped _ envs rfl hticks now

/-- Witness for C1 at a concrete armed poller with two prior failures
and a concrete pair of subsequent ticks. -/
theorem poller_stops_after_max_errors_witness :
    (onFetchComplete budgetNearlySpent FetchOutcome.failure 0).fst.timerId = none ∧
    (onFetchComplete budgetNearlySpent FetchOutcome.failure 0).snd =
      [PollEvent.error false none none] ∧
    runPoller (onFetchComplete budgetNearlySpent FetchOutcome.failure 0).fst
      [PollEnv.tick FetchOutcome.failure, PollEnv.tick (FetchOutcome.success 9)] 1 =
      ((onFetchComplete budgetNearlySpent FetchOutcome.failure 0).fst, []) ∧
    (startPoller (onFetchComplete budgetNearlySpent FetchOutcome.failure 0).fst).timerId =
      some () := by
  have h := poller_stops_after_max_errors budgetNearlySpent rfl rfl
  exact ⟨h.1, h.2.1, h.2.2.1 _ (by decide) 1, h.2.2.2⟩

/-- Claim C2 (amended): in the token-variant poller used by the Angular
service, every completed fetch attempt delivers exactly one event to
the callbacks — the snapshot when the fetch succeeds, an ErrorEvent
when it fails; the basic variant, by contrast, delivers nothing on
failure (see the counterexample). -/
theorem one_event_per_attempt (s : PollerState) (o : FetchOutcome) (now : Nat) :
    (onFetchComplete s o now).snd.length = 1 ∧
    (∀ d, o = FetchOutcome.success d →
      (onFetchComplete s o now).snd = [PollEvent.snapshot d]) ∧
    (o = FetchOutcome.failure →
      ∃ r ec me, (onFetchComplete s o now).snd = [PollEvent.error r ec me]) := by
  refine ⟨onFetchComplete_snd_length s o now, ?_, ?_⟩
  · rintro d rfl; rfl
  · rintro rfl
    simp only [onFetchComplete, handleError]
    by_cases h : s.maxErrors ≤ s.errorCount + 1
    · exact ⟨false, none, none, by simp [h]⟩
    · exact ⟨true, some (s.errorCount + 1), some s.maxErrors, by simp [h]⟩

/-- Witness for C2 (amended) at a concrete poller, one success and one
failure. -/
theorem one_event_per_attempt_witness :
    (onFetchComplete basePoller (FetchOutcome.success 5) 0).snd =
      [PollEvent.snapshot 5] ∧
    (∃ r ec me, (onFetchComplete basePoller FetchOutcome.failure 0).snd =
      [PollEvent.error r ec me]) :=
  ⟨(one_event_per_attempt basePoller (FetchOutcome.success 5) 0).2.1 5 rfl,
   (one_event_per_attempt basePoller FetchOutcome.failure 0).2.2 rfl⟩

/-- Claim C2 counterexample: in the basic `VerificationPoller` variant
(no `handleError`), a failed fetch attempt delivers zero events — the
promise catch only logs. -/
theorem legacy_failure_delivers_no_event :
    (legacyFetchComplete legacyPoller FetchOutcome.failure 0).snd = [] ∧
    ¬ ((legacyFetchComplete legacyPoller FetchOutcome.failure 0).snd.length = 1) :=
  ⟨rfl, by decide⟩

/-- Claim C3: a successful fetch resets the consecutive-error count to
0 from any prior count (in particular after 2 failures), and `stop()`
followed by `start()` resets it to 0 regardless of the prior count. -/
theorem error_count_resets (s : PollerState) (d : Nat) (now : Nat) :
    (onFetchComplete s (FetchOutcome.success d) now).fst.errorCount = 0 ∧
    (startPoller (stopPoller s)).errorCount = 0 :=
  ⟨rfl, rfl⟩

/-- Claim C4 counterexample: starting a poller and feeding it three
consecutive failing ticks produces two retrying ErrorEvents followed by
one terminal event — not three retrying events followed by a terminal
one. -/
theorem three_failures_not_three_retries :
    (runPoller (startPoller basePoller) threeFailures 0).snd =
      [PollEvent.error true (some 1) (some 3),
       PollEvent.error true (some 2) (some 3),
       PollEvent.error false none none] ∧
    (runPoller (startPoller basePoller) threeFailures 0).snd.countP isRetryingEvent = 2 ∧
    ¬ ((runPoller (startPoller basePoller) threeFailures 0).snd.countP isRetryingEvent = 3) := by
  refine ⟨rfl, rfl, by decide⟩

/-- Claim C4 (amended): from a running poller with a fresh error budget
(maxErrors = 3), three consecutive failing ticks produce exactly 2
non-terminal ErrorEvents (`retrying: true`, counts 1 and 2) followed by
1 terminal event, with the timer cleared afterwards. -/
theorem three_failures_trace (s : PollerState) (h1 : s.timerId = some ())
    (h2 : s.errorCount = 0) (h3 : s.maxErrors = 3) :
    (runPoller s threeFailures 0).snd =
      [PollEvent.error true (some 1) (some 3),
       PollEvent.error true (some 2) (some 3),
       PollEvent.error false none none] ∧
    (runPoller s threeFailures 0).fst.timerId = none := by
  simp [threeFailures, runPoller, stepEnv, onFetchComplete, handleError, h1, h2, h3]

/-- Witness for C4 (amended) at a freshly started concrete poller. -/
theorem three_failures_trace_witness :
    (runPoller (startPoller basePoller) threeFailures 0).snd =
      [PollEvent.error true (some 1) (some 3),
       PollEvent.error true (some 2) (some 3),
       PollEvent.error false none none] ∧
    (runPoller (startPoller basePoller) threeFailures 0).fst.timerId = none :=
  three_failures_trace (startPoller basePoller) rfl rfl rfl

/-- Claim C7 counterexample: after `start()` then `stop()` the timer is
cleared, yet the completion of a request that was still in flight is
delivered to the callbacks (a snapshot event), not discarded. -/
theorem late_response_after_stop_delivers :
    (stopPoller (startPoller basePoller)).timerId = none ∧
    (runPoller (stopPoller (startPoller basePoller))
        [PollEnv.late (FetchOutcome.success 42)] 0).snd = [PollEvent.snapshot 42] :=
  ⟨rfl, rfl⟩

/-- Claim C7 (amended): the poller consults no "still running" flag on
completion: with the timer cleared, a completing fetch still delivers
exactly one event, and the delivered events are identical to those of
the armed state. -/
theorem completion_ignores_running_flag (s : PollerState) (o : FetchOutcome) (now : Nat)
    (_hstop : s.timerId = none) :
    (onFetchComplete s o now).snd.length = 1 ∧
    (onFetchComplete s o now).snd =
      (onFetchComplete { s with timerId := some () } o now).snd := by
  refine ⟨onFetchComplete_snd_length s o now, ?_⟩
  cases o with
  | success d => rfl
  | failure =>
    simp only [onFetchComplete, handleError]
    by_cases h : s.maxErrors ≤ s.errorCount + 1 <;> simp [h]

/-- Witness for C7 (amended) at a stopped concrete poller. -/
theorem completion_ignores_running_flag_witness :
    (onFetchComplete (stopPoller (startPoller basePoller))
      (FetchOutcome.success 42) 0).snd.length = 1 ∧
    (onFetchComplete (stopPoller (startPoller basePoller))
      (FetchOutcome.success 42) 0).snd =
      (onFetchComplete { stopPoller (startPoller basePoller) with timerId := some () }
        (FetchOutcome.success 42) 0).snd :=
  completion_ignores_running_flag (stopPoller (startPoller basePoller))
    (FetchOutcome.success 42) 0 rfl

/-- Claim C10: the constructor throws exactly when the session id is
falsy or fails to parse to a positive integer, and the update interval
is stored unvalidated (any value, including sub-1000 ms ones). -/
theorem constructor_validation (sessionId : JSVal) (i : Int) (tok : Option String) :
    ((∃ p, mkVerificationPoller sessionId i tok = Except.ok p) ↔
      truthy sessionId = true ∧ ∃ n, jsParseInt sessionId = some n ∧ 0 < n) ∧
    (∀ p, mkVerificationPoller sessionId i tok = Except.ok p →
      p.updateInterval = i ∧ p.maxErrors = 3) := by
  unfold mkVerificationPoller
  by_cases hc : truthy sessionId = false ∨ (jsParseInt sessionId).isNone = true ∨
      (jsParseInt sessionId).getD 0 ≤ 0
  · rw [if_pos hc]
    constructor
    · constructor
      · rintro ⟨p, hp⟩
        cases hp
      · rintro ⟨h1, n, hn, hpos⟩
        exfalso
        rcases hc with h | h | h
        · rw [h1] at h; cases h
        · rw [hn] at h; simp at h
        · rw [hn] at h; simp at h; omega
    · intro p hp
      cases hp
  · rw [if_neg hc]
    push_neg at hc
    obtain ⟨h1, h2, h3⟩ := hc
    constructor
    · constructor
      · intro _
        constructor
        · cases htr : truthy sessionId with
          | false => exact absurd htr h1
          | true => rfl
        · cases hpi : jsParseInt sessionId with
          | none => rw [hpi] at h2; simp at h2
          | some n =>
            refine ⟨n, rfl, ?_⟩
            rw [hpi] at h3
            simp at h3
            omega
      · intro _
        exact ⟨_, rfl⟩
    · intro p hp
      cases hp
      exact ⟨rfl, rfl⟩

/-- Witness for C10: session id 7 with a 250 ms interval (below
1000 ms) constructs successfully and stores the interval as given. -/
theorem constructor_validation_witness :
    (∃ p, mkVerificationPoller (JSVal.num 7) 250 none = Except.ok p) ∧
    (mkVerificationPoller (JSVal.num 7) 250 none).toOption.map
      (fun p => p.updateInterval) = some 250 := by
  have h := constructor_validation (JSVal.num 7) 250 none
  have hok := h.1.mpr ⟨by decide, 7, by decide, by decide⟩
  refine ⟨hok, ?_⟩
  obtain ⟨p, hp⟩ := hok
  rw [hp]
  simp [Except.toOption, (h.2 p hp).1]

/-- Claim C5 evaluation at the spec scenario payload: the code yields
quantity 1 for "Scalpel", not the scenario's quantity 2 —
`getItemQuantity` reads the `quantity` property of the bare count 2
(which a number does not have) and defaults to 1, so the backend's
count never reaches the view.  The "Basic Tray" entry agrees with the
scenario only because its count is 1. -/
theorem scenario_payload_quantities :
    getCombinedItems (some scenarioPayload) Category.missing =
      [{ name := "Scalpel", type := "instrument", quantity := 1 }] ∧
    getCombinedItems (some scenarioPayload) Category.used =
      [{ name := "Basic Tray", type := "tray", quantity := 1 }] ∧
    ¬ (getCombinedItems (some scenarioPayload) Category.missing =
      [{ name := "Scalpel", type := "instrument", quantity := 2 }]) :=
  ⟨rfl, rfl, by decide⟩

/-- Claim C6 evaluation: after `startVerificationPolling`, a
visibilitychange to hidden clears the poller's timer but leaves
`pollingActive` set, so the subsequent visibilitychange to visible
takes the `!pollingActive` guard as false and changes nothing — the
poller is never restarted and no immediate fetch happens. -/
theorem visibility_resume_never_fires :
    svcAfterStart.poller.map (fun p => p.timerId) = some (some ()) ∧
    (handleVisibilityChange true svcAfterStart).poller.map (fun p => p.timerId) =
      some none ∧
    (handleVisibilityChange true svcAfterStart).pollingActive = true ∧
    handleVisibilityChange false (handleVisibilityChange true svcAfterStart) =
      handleVisibilityChange true svcAfterStart :=
  ⟨rfl, rfl, rfl, rfl⟩

/-- Claim C8: with no tabs structure, an absent (or non-object)
`used_items` field yields an empty used bucket, and an absent
`instruments` or `trays` sub-map contributes nothing while the other
sub-map is still normalized; an absent `missing_items` likewise yields
an empty missing bucket — normalization always returns instead of
throwing. -/
theorem absent_submaps_degrade_gracefully (v : VStatus) (htabs : v.tabs = none) :
    (v.used_items = none → getCombinedItems (some v) Category.used = []) ∧
    (∀ im, v.used_items = some im → im.instruments = none →
      getCombinedItems (some v) Category.used = collectLeaves "tray" im.trays) ∧
    (∀ im, v.used_items = some im → im.trays = none →
      getCombinedItems (some v) Category.used =
        collectLeaves "instrument" im.instruments) ∧
    (v.missing_items = none → getCombinedItems (some v) Category.missing = []) := by
  refine ⟨?_, ?_, ?_, ?_⟩
  · intro h
    simp [getCombinedItems, combinedFallback, collectLeaves, htabs, h]
  · intro im him hi
    simp [getCombinedItems, combinedFallback, collectLeaves, htabs, him, hi]
  · intro im him ht
    simp [getCombinedItems, combinedFallback, collectLeaves, htabs, him, ht]
  · intro h
    simp [getCombinedItems, combinedFallback, collectLeaves, htabs, h]

/-- Witness for C8: the payload with `missing_items` present and
`used_items` entirely absent normalizes to an empty used bucket while
the missing bucket is still produced. -/
theorem absent_submaps_degrade_gracefully_witness :
    getCombinedItems (some noUsedPayload) Category.used = [] ∧
    getCombinedItems (some noUsedPayload) Category.missing =
      [{ name := "Scalpel", type := "instrument", quantity := 1 }] :=
  ⟨(absent_submaps_degrade_gracefully noUsedPayload rfl).1 rfl, rfl⟩

/-- Claim C9 counterexample: "Scissors" is a key of
`used_items.instruments`, yet `isItemMissing` returns true — the
`required_items_status` branch (1 found of 2 required) answers before
the used-items precedence rule is ever consulted. -/
theorem used_precedence_violated :
    usedContains overrideStatus "Scissors" = true ∧
    isItemMissing (some overrideStatus) "Scissors" = true :=
  ⟨by decide, by decide⟩

/-- Claim C9 (amended): when `required_items_status` has no entry for
the name, `isItemMissing` returns true exactly when the name is absent
from the `used_items` keys and present among the `missing_items` keys
(presence in used takes precedence); when `required_items_status` does
hold an entry for the name, the result is `found_quantity <
required_quantity`, regardless of `used_items` and `missing_items`. -/
theorem isItemMissing_characterization (st : VStatus) (n : String) :
    (reqLookup st n = none →
      (isItemMissing (some st) n = true ↔
        usedContains st n = false ∧ missingContains st n = true)) ∧
    (∀ e, reqLookup st n = some e →
      isItemMissing (some st) n = decide (e.found_quantity < e.required_quantity)) := by
  have hfb : fallbackIsMissing st n = true ↔
      usedContains st n = false ∧ missingContains st n = true := by
    rw [fallbackIsMissing]
    by_cases hu : usedContains st n = true
    · simp [hu]
    · simp [hu]
  constructor
  · intro hnone
    cases hr : st.required_items_status with
    | none => simpa [isItemMissing, hr] using hfb
    | some r =>
      simp only [reqLookup, hr] at hnone
      cases hi : lookupEntry r.instruments n with
      | some e => simp [hi] at hnone
      | none =>
        simp only [hi] at hnone
        simpa [isItemMissing, hr, hi, hnone] using hfb
  · intro e he
    cases hr : st.required_items_status with
    | none => simp [reqLookup, hr] at he
    | some r =>
      simp only [reqLookup, hr] at he
      cases hi : lookupEntry r.instruments n with
      | some e2 =>
        simp only [hi] at he
        cases he
        simp [isItemMissing, hr, hi]
      | none =>
        simp only [hi] at he
        simp [isItemMissing, hr, hi, he]

/-- Witness for C9 (amended), covering both branches: the fallback at a
status without `required_items_status` ("Retractor" only missing →
true; "Clamp" used and missing → false), and the required-status
branch at the override status. -/
theorem isItemMissing_characterization_witness :
    isItemMissing (some fallbackOnlyStatus) "Retractor" = true ∧
    isItemMissing (some fallbackOnlyStatus) "Clamp" = false ∧
    isItemMissing (some overrideStatus) "Scissors" =
      decide ((1 : Int) < (2 : Int)) := by
  have h1 := (isItemMissing_characterization fallbackOnlyStatus "Retractor").1 rfl
  have h2 := (isItemMissing_characterization fallbackOnlyStatus "Clamp").1 rfl
  have h3 := (isItemMissing_characterization overrideStatus "Scissors").2
    { found_quantity := 1, required_quantity := 2 } rfl
  refine ⟨h1.mpr ⟨by decide, by decide⟩, ?_, h3⟩
  cases hb : isItemMissing (some fallbackOnlyStatus) "Clamp" with
  | false => rfl
  | true => exact absurd (h2.mp hb).1 (by decide)

end HCS
